import Mathlib

/-!
Verification of the gemini-mcp server (src/index.ts) against its
natural-language specification.

The definitions below are a shallow embedding of the TypeScript source:
pure request-construction and response-extraction logic becomes Lean
functions, thrown errors become `Except.error`, the upstream HTTP call
becomes an oracle parameter `upstream : GeminiCall → Except String String`,
and JavaScript `undefined` becomes `Option.none`.
-/

namespace GeminiMcp

/-- Constant from src/index.ts line 12. -/
def GEMINI_API_BASE : String :=
  "https://generativelanguage.googleapis.com/v1beta/models"

/-- Constant from src/index.ts line 13. -/
def DEFAULT_MODEL : String := "gemini-2.5-flash-preview-05-20"

/-- Role of a message: the TypeScript union type from lines 17 and 212. -/
inductive Role where
  | user
  | model
deriving DecidableEq, Repr

/-- One element of `GeminiMessage.parts` (line 18). -/
structure GeminiPart where
  text : String
deriving DecidableEq, Repr

/-- The `GeminiMessage` interface (lines 16-19). -/
structure GeminiMessage where
  role : Role
  parts : List GeminiPart
deriving DecidableEq, Repr

/-- The tuple of arguments a handler passes to `callGemini`
(lines 54-58): messages, model, temperature, maxTokens.  Temperature is
embedded as a rational; the source only ever passes the literals 0.7 and
0.5 through unchanged, embedded as 7/10 and 1/2. -/
structure GeminiCall where
  messages : List GeminiMessage
  model : String
  temperature : ℚ
  maxTokens : ℕ
deriving DecidableEq, Repr

/-- JavaScript `String.prototype.trim`: drop whitespace from both ends. -/
def jsTrim (s : String) : String :=
  ⟨((s.data.dropWhile Char.isWhitespace).reverse.dropWhile
      Char.isWhitespace).reverse⟩

/-- JavaScript `x || d` on an optional string: `undefined` and the empty
string are falsy, so both fall back to the default. -/
def orDefault (m : Option String) (d : String) : String :=
  match m with
  | none => d
  | some s => if s = "" then d else s

/-- Untyped argument object of a tool call: only the fields the three
handlers ever read, each possibly absent.  (`messages` elements are kept
typed because the handlers copy `role`/`content` through without
inspection.) -/
structure ChatTurn where
  role : Role
  content : String
deriving DecidableEq, Repr

structure RawArgs where
  prompt : Option String := none
  context : Option String := none
  messages : Option (List ChatTurn) := none
  content : Option String := none
  focus : Option String := none
  model : Option String := none
deriving DecidableEq, Repr

/-- Handler `handleGeminiAnalyze` (lines 190-209), up to the point where
it hands a fully built request to `callGemini`; a thrown `Error` becomes
`Except.error` with the thrown message. -/
def handleGeminiAnalyze (args : RawArgs) : Except String GeminiCall :=
  match args.prompt with
  | none => .error "prompt is required and cannot be empty"
  | some p =>
    if jsTrim p = "" then
      .error "prompt is required and cannot be empty"
    else
      let fullPrompt :=
        match args.context with
        | some c =>
          if jsTrim c ≠ "" then p ++ "\n\n--- Context ---\n" ++ c else p
        | none => p
      .ok ⟨[⟨Role.user, [⟨fullPrompt⟩]⟩],
           orDefault args.model DEFAULT_MODEL, 7/10, 8192⟩

/-- Handler `handleGeminiChat` (lines 211-225). -/
def handleGeminiChat (args : RawArgs) : Except String GeminiCall :=
  match args.messages with
  | none => .error "messages array is required and cannot be empty"
  | some msgs =>
    if msgs = [] then
      .error "messages array is required and cannot be empty"
    else
      .ok ⟨msgs.map (fun m => ⟨m.role, [⟨m.content⟩]⟩),
           orDefault args.model DEFAULT_MODEL, 7/10, 8192⟩

/-- Handler `handleGeminiSummarize` (lines 227-249). -/
def handleGeminiSummarize (args : RawArgs) : Except String GeminiCall :=
  match args.content with
  | none => .error "content is required and cannot be empty"
  | some content =>
    if jsTrim content = "" then
      .error "content is required and cannot be empty"
    else
      let prompt :=
        match args.focus with
        | some f =>
          if jsTrim f ≠ "" then
            "Please summarize the following content, focusing specifically on: "
              ++ f ++ "\n\n"
          else
            "Please provide a concise summary of the following content:\n\n"
        | none =>
          "Please provide a concise summary of the following content:\n\n"
      .ok ⟨[⟨Role.user, [⟨prompt ++ content⟩]⟩],
           orDefault args.model DEFAULT_MODEL, 1/2, 8192⟩

/-- The `error` object of a Gemini JSON response (lines 35-38). -/
structure GeminiErrorObj where
  message : Option String := none
  code : Option ℕ := none
deriving DecidableEq, Repr

/-- Innermost part of a response candidate (line 32). -/
structure CandPart where
  text : Option String := none
deriving DecidableEq, Repr

structure CandContent where
  parts : Option (List CandPart) := none
deriving DecidableEq, Repr

structure Candidate where
  content : Option CandContent := none
deriving DecidableEq, Repr

/-- The `GeminiResponse` interface (lines 29-39). -/
structure GeminiResponse where
  candidates : Option (List Candidate) := none
  error : Option GeminiErrorObj := none
deriving DecidableEq, Repr

/-- The optional chain `data.candidates?.[0]?.content?.parts?.[0]?.text`
(line 91). -/
def responseText? (data : GeminiResponse) : Option String :=
  ((((data.candidates.bind List.head?).bind Candidate.content).bind
      CandContent.parts).bind List.head?).bind CandPart.text

/-- The body-handling tail of `callGemini` (lines 85-96): given an
already-parsed 2xx JSON body, raise the embedded API error if present,
otherwise require a non-empty extracted text. -/
def extractResponseText (data : GeminiResponse) : Except String String :=
  match data.error with
  | some e => .error ("Gemini API error: " ++ orDefault e.message "Unknown error")
  | none =>
    match responseText? data with
    | none => .error "No response content from Gemini"
    | some t => if t = "" then .error "No response content from Gemini" else .ok t

/-- Running one tool handler by name (the `switch` at lines 277-289).
The whole of `callGemini` — API-key lookup, HTTP round trip, body
parsing — is abstracted as the oracle `upstream`; any error it raises is
an `Except.error` like a handler-thrown one. -/
def runTool (upstream : GeminiCall → Except String String)
    (name : String) (args : RawArgs) : Except String String :=
  if name = "gemini_analyze" then (handleGeminiAnalyze args).bind upstream
  else if name = "gemini_chat" then (handleGeminiChat args).bind upstream
  else if name = "gemini_summarize" then (handleGeminiSummarize args).bind upstream
  else .error ("Unknown tool: " ++ name)

/-- The response envelope produced by the dispatch boundary
(lines 291-299): `content[0].text` plus the `isError` flag (absent on
success, embedded as `false`). -/
structure ToolResponse where
  text : String
  isError : Bool
deriving DecidableEq, Repr

/-- The `CallToolRequestSchema` handler (lines 271-301): run the named
tool and catch every thrown error at this single boundary. -/
def dispatchTool (upstream : GeminiCall → Except String String)
    (name : String) (args : RawArgs) : ToolResponse :=
  match runTool upstream name args with
  | .ok t => ⟨t, false⟩
  | .error m => ⟨"Error: " ++ m, true⟩

/-- Spec-side count (spec §3, §4.1): a chat turn's `content` is required
and must be non-empty; this counts the turns violating that constraint.
The implementation performs no such per-turn check, so this definition
follows the specification's words, for comparison with the handlers. -/
def chatTurnContentViolations (msgs : List ChatTurn) : ℕ :=
  (msgs.filter (fun t => t.content == "")).length

end GeminiMcp

/-! Helper lemmas. -/

namespace GeminiMcp

/-- A string made only of whitespace characters trims to the empty
string, so the JavaScript truthiness test on the trimmed value fails. -/
theorem jsTrim_eq_empty_of_whitespace (s : String)
    (h : ∀ ch ∈ s.data, ch.isWhitespace) : jsTrim s = "" := by
  have h1 : s.data.dropWhile Char.isWhitespace = [] :=
    List.dropWhile_eq_nil_iff.mpr h
  simp [jsTrim, h1]

/-! Claim theorems. -/

/-- C1, counterexample: the claim says a model string outside the fixed
set of known model names yields a validation failure and no upstream
call.  In the code no model validation exists: `analyze` with
model "not-a-real-model" validates successfully, the built request
carries that model string verbatim, and the upstream oracle IS invoked
with it. -/
theorem c1_model_not_validated_counterexample :
    handleGeminiAnalyze { prompt := some "X", model := some "not-a-real-model" } =
      .ok ⟨[⟨Role.user, [⟨"X"⟩]⟩], "not-a-real-model", 7/10, 8192⟩ ∧
    runTool (fun call => .ok ("upstream called with model " ++ call.model))
        "gemini_analyze" { prompt := some "X", model := some "not-a-real-model" } =
      .ok "upstream called with model not-a-real-model" :=
  ⟨rfl, rfl⟩

/-- C1, amended: the handlers never validate the model argument.  For
each of the three tools, any present non-empty model string — in a fixed
enumerated set or not — is accepted and passed verbatim to the upstream
caller. -/
theorem c1_model_passed_verbatim (m p content : String) (msgs : List ChatTurn)
    (hm : m ≠ "") (hp : jsTrim p ≠ "") (hc : jsTrim content ≠ "")
    (hmsgs : msgs ≠ []) :
    (∃ call, handleGeminiAnalyze { prompt := some p, model := some m } = .ok call ∧
      call.model = m) ∧
    (∃ call, handleGeminiChat { messages := some msgs, model := some m } = .ok call ∧
      call.model = m) ∧
    (∃ call, handleGeminiSummarize { content := some content, model := some m } = .ok call ∧
      call.model = m) := by
  refine ⟨⟨⟨[⟨Role.user, [⟨p⟩]⟩], m, 7/10, 8192⟩, ?_, rfl⟩,
    ⟨⟨msgs.map (fun t => ⟨t.role, [⟨t.content⟩]⟩), m, 7/10, 8192⟩, ?_, rfl⟩,
    ⟨⟨[⟨Role.user,
        [⟨"Please provide a concise summary of the following content:\n\n"
            ++ content⟩]⟩], m, 1/2, 8192⟩, ?_, rfl⟩⟩
  · simp [handleGeminiAnalyze, hp, orDefault, hm]
  · simp [handleGeminiChat, hmsgs, orDefault, hm]
  · simp [handleGeminiSummarize, hc, orDefault, hm]

/-- C1, witness: concrete instantiation of `c1_model_passed_verbatim`
with the model string "not-a-real-model". -/
theorem c1_model_passed_verbatim_witness :
    (∃ call, handleGeminiAnalyze { prompt := some "X", model := some "not-a-real-model" } = .ok call ∧
      call.model = "not-a-real-model") ∧
    (∃ call, handleGeminiChat { messages := some [⟨Role.user, "hi"⟩], model := some "not-a-real-model" } = .ok call ∧
      call.model = "not-a-real-model") ∧
    (∃ call, handleGeminiSummarize { content := some "ABC", model := some "not-a-real-model" } = .ok call ∧
      call.model = "not-a-real-model") :=
  c1_model_passed_verbatim "not-a-real-model" "X" "ABC" [⟨Role.user, "hi"⟩]
    (by decide) (by decide) (by decide) (by decide)

/-- C2, counterexample: the claim says a request violating several
validation constraints yields one aggregated failure with a message per
violated field.  A chat request whose two turns both have empty content
violates the specification's per-turn non-empty-content constraint
twice, yet the code raises no validation failure at all — the request
validates successfully and both empty turns are forwarded. -/
theorem c2_no_aggregation_counterexample :
    chatTurnContentViolations [⟨Role.user, ""⟩, ⟨Role.model, ""⟩] = 2 ∧
    handleGeminiChat { messages := some [⟨Role.user, ""⟩, ⟨Role.model, ""⟩] } =
      .ok ⟨[⟨Role.user, [⟨""⟩]⟩, ⟨Role.model, [⟨""⟩]⟩], DEFAULT_MODEL, 7/10, 8192⟩ :=
  ⟨rfl, rfl⟩

/-- C2, amended: each handler checks a single constraint (its required
field present and non-blank, or the messages array non-empty) and throws
one fixed single-field message on the first violation; no aggregation of
several violations ever occurs, and every validation failure a handler
can produce is exactly that tool's one fixed message. -/
theorem c2_single_fixed_message (args : RawArgs) (m : String) :
    (handleGeminiAnalyze args = .error m →
      m = "prompt is required and cannot be empty") ∧
    (handleGeminiChat args = .error m →
      m = "messages array is required and cannot be empty") ∧
    (handleGeminiSummarize args = .error m →
      m = "content is required and cannot be empty") := by
  refine ⟨?_, ?_, ?_⟩ <;> intro h
  · unfold handleGeminiAnalyze at h
    split at h
    · simp at h
      exact h.symm
    · split at h
      · simp at h
        exact h.symm
      · simp at h
  · unfold handleGeminiChat at h
    split at h
    · simp at h
      exact h.symm
    · split at h
      · simp at h
        exact h.symm
      · simp at h
  · unfold handleGeminiSummarize at h
    split at h
    · simp at h
      exact h.symm
    · split at h
      · simp at h
        exact h.symm
      · simp at h

/-- C2, witness: `c2_single_fixed_message` applied to the empty argument
object, whose analyze validation failure is the fixed prompt message. -/
theorem c2_single_fixed_message_witness :
    "prompt is required and cannot be empty" =
      "prompt is required and cannot be empty" :=
  (c2_single_fixed_message {} "prompt is required and cannot be empty").1 rfl

/-- C3: whatever error a tool handler (or the upstream call, or the
unknown-tool branch) raises, the dispatch boundary catches it and
returns a well-formed envelope whose text is "Error: " followed by the
error message with the isError flag true; successes come back with the
plain text and isError false.  The boundary is a total function, so no
error escapes it. -/
theorem c3_error_envelope (upstream : GeminiCall → Except String String)
    (name : String) (args : RawArgs) :
    (∀ m, runTool upstream name args = .error m →
      dispatchTool upstream name args = ⟨"Error: " ++ m, true⟩) ∧
    (∀ t, runTool upstream name args = .ok t →
      dispatchTool upstream name args = ⟨t, false⟩) := by
  constructor <;> intro x h <;> simp [dispatchTool, h]

/-- C3, witness: an upstream failure "boom" on a valid analyze request
is returned as the envelope ⟨"Error: boom", true⟩. -/
theorem c3_error_envelope_witness :
    dispatchTool (fun _ => .error "boom") "gemini_analyze" { prompt := some "X" } =
      ⟨"Error: boom", true⟩ :=
  (c3_error_envelope (fun _ => .error "boom") "gemini_analyze"
    { prompt := some "X" }).1 "boom" rfl

/-- C4: for a valid analyze prompt, an absent or blank-after-trimming
context leaves the single user message equal to the prompt exactly,
while a non-blank context yields prompt ++ "\n\n--- Context ---\n" ++
context (the context appended verbatim, untrimmed). -/
theorem c4_analyze_message (p : String) (ctx mo : Option String)
    (hp : jsTrim p ≠ "") :
    ((ctx = none ∨ ∃ c, ctx = some c ∧ jsTrim c = "") →
      handleGeminiAnalyze { prompt := some p, context := ctx, model := mo } =
        .ok ⟨[⟨Role.user, [⟨p⟩]⟩], orDefault mo DEFAULT_MODEL, 7/10, 8192⟩) ∧
    (∀ c, ctx = some c → jsTrim c ≠ "" →
      handleGeminiAnalyze { prompt := some p, context := ctx, model := mo } =
        .ok ⟨[⟨Role.user, [⟨p ++ "\n\n--- Context ---\n" ++ c⟩]⟩],
             orDefault mo DEFAULT_MODEL, 7/10, 8192⟩) := by
  constructor
  · rintro (rfl | ⟨c, rfl, hc⟩)
    · simp [handleGeminiAnalyze, hp]
    · simp [handleGeminiAnalyze, hp, hc]
  · rintro c rfl hc
    simp [handleGeminiAnalyze, hp, hc]

/-- C4, witness: prompt "X" with whitespace-only context " " builds the
message "X" exactly, with no context block. -/
theorem c4_analyze_message_witness :
    handleGeminiAnalyze { prompt := some "X", context := some " " } =
      .ok ⟨[⟨Role.user, [⟨"X"⟩]⟩], DEFAULT_MODEL, 7/10, 8192⟩ :=
  (c4_analyze_message "X" (some " ") none (by decide)).1
    (Or.inr ⟨" ", rfl, by decide⟩)

/-- C5: for valid summarize content, the single user message is the
fixed instruction line followed by the content, or the focus-aware
instruction line when focus is present and non-blank after trimming; the
temperature in the built call is 1/2 (0.5) in both cases. -/
theorem c5_summarize_message (content : String) (focus mo : Option String)
    (hc : jsTrim content ≠ "") :
    ((focus = none ∨ ∃ f, focus = some f ∧ jsTrim f = "") →
      handleGeminiSummarize { content := some content, focus := focus, model := mo } =
        .ok ⟨[⟨Role.user,
              [⟨"Please provide a concise summary of the following content:\n\n"
                  ++ content⟩]⟩],
             orDefault mo DEFAULT_MODEL, 1/2, 8192⟩) ∧
    (∀ f, focus = some f → jsTrim f ≠ "" →
      handleGeminiSummarize { content := some content, focus := focus, model := mo } =
        .ok ⟨[⟨Role.user,
              [⟨"Please summarize the following content, focusing specifically on: "
                  ++ f ++ "\n\n" ++ content⟩]⟩],
             orDefault mo DEFAULT_MODEL, 1/2, 8192⟩) := by
  constructor
  · rintro (rfl | ⟨f, rfl, hf⟩)
    · simp [handleGeminiSummarize, hc]
    · simp [handleGeminiSummarize, hc, hf]
  · rintro f rfl hf
    simp [handleGeminiSummarize, hc, hf, String.append_assoc]

/-- C5, witness: content "ABC" with focus "bugs" builds the focus-aware
message at temperature 1/2. -/
theorem c5_summarize_message_witness :
    handleGeminiSummarize { content := some "ABC", focus := some "bugs" } =
      .ok ⟨[⟨Role.user,
            [⟨"Please summarize the following content, focusing specifically on: "
                ++ "bugs" ++ "\n\n" ++ "ABC"⟩]⟩],
           DEFAULT_MODEL, 1/2, 8192⟩ :=
  (c5_summarize_message "ABC" (some "bugs") none (by decide)).2 "bugs" rfl (by decide)

/-- C6: a chat request with a non-empty list of turns validates, and its
built message list has one message per input turn — same length, and at
every index the output message carries the input turn's role and content
verbatim. -/
theorem c6_chat_turns (msgs : List ChatTurn) (mo : Option String)
    (h : msgs ≠ []) :
    ∃ call, handleGeminiChat { messages := some msgs, model := mo } = .ok call ∧
      call.messages.length = msgs.length ∧
      ∀ i : ℕ, call.messages[i]? =
        (msgs[i]?).map (fun t => GeminiMessage.mk t.role [⟨t.content⟩]) := by
  refine ⟨⟨msgs.map (fun t => ⟨t.role, [⟨t.content⟩]⟩),
      orDefault mo DEFAULT_MODEL, 7/10, 8192⟩, ?_, ?_, ?_⟩
  · simp [handleGeminiChat, h]
  · simp
  · intro i
    simp [List.getElem?_map]

/-- C6, witness: the single turn {role: user, content: "hi"} produces
exactly one upstream message with role user and text "hi". -/
theorem c6_chat_turns_witness :
    ∃ call, handleGeminiChat { messages := some [⟨Role.user, "hi"⟩] } = .ok call ∧
      call.messages.length = ([(⟨Role.user, "hi"⟩ : ChatTurn)]).length ∧
      ∀ i : ℕ, call.messages[i]? =
        (([(⟨Role.user, "hi"⟩ : ChatTurn)])[i]?).map
          (fun t => GeminiMessage.mk t.role [⟨t.content⟩]) :=
  c6_chat_turns [⟨Role.user, "hi"⟩] none (by decide)

/-- C7: each tool invoked with its required field missing fails with the
fixed validation message, that message contains the field's name as a
substring, and — for every possible upstream oracle — the tool run
returns that same error, so the upstream is never consulted. -/
theorem c7_missing_required_field (a b c : RawArgs)
    (ha : a.prompt = none) (hb : b.messages = none) (hc : c.content = none) :
    (handleGeminiAnalyze a = .error "prompt is required and cannot be empty" ∧
      "prompt".data <:+: "prompt is required and cannot be empty".data ∧
      ∀ u, runTool u "gemini_analyze" a =
        .error "prompt is required and cannot be empty") ∧
    (handleGeminiChat b = .error "messages array is required and cannot be empty" ∧
      "messages".data <:+: "messages array is required and cannot be empty".data ∧
      ∀ u, runTool u "gemini_chat" b =
        .error "messages array is required and cannot be empty") ∧
    (handleGeminiSummarize c = .error "content is required and cannot be empty" ∧
      "content".data <:+: "content is required and cannot be empty".data ∧
      ∀ u, runTool u "gemini_summarize" c =
        .error "content is required and cannot be empty") := by
  refine ⟨⟨?_, by decide, ?_⟩, ⟨?_, by decide, ?_⟩, ⟨?_, by decide, ?_⟩⟩
  · simp [handleGeminiAnalyze, ha]
  · intro u; simp [runTool, handleGeminiAnalyze, ha, Except.bind]
  · simp [handleGeminiChat, hb]
  · intro u; simp [runTool, handleGeminiChat, hb, Except.bind]
  · simp [handleGeminiSummarize, hc]
  · intro u; simp [runTool, handleGeminiSummarize, hc, Except.bind]

/-- C7, witness: the empty argument object triggers each tool's fixed
missing-field message. -/
theorem c7_missing_required_field_witness :
    handleGeminiAnalyze {} = .error "prompt is required and cannot be empty" ∧
    handleGeminiChat {} = .error "messages array is required and cannot be empty" ∧
    handleGeminiSummarize {} = .error "content is required and cannot be empty" :=
  ⟨(c7_missing_required_field {} {} {} rfl rfl rfl).1.1,
   (c7_missing_required_field {} {} {} rfl rfl rfl).2.1.1,
   (c7_missing_required_field {} {} {} rfl rfl rfl).2.2.1⟩

/-- C8, counterexample: the claim quotes the failure message as
"No response content returned", but the code throws
"No response content from Gemini" — a response with no candidates array
produces the latter message, which differs from the quoted one. -/
theorem c8_message_differs_counterexample :
    extractResponseText {} = .error "No response content from Gemini" ∧
    "No response content from Gemini" ≠ "No response content returned" :=
  ⟨rfl, by decide⟩

/-- C8, amended: for a well-formed 2xx response without an error object,
a missing or empty extracted text yields the failure
"No response content from Gemini" rather than an unhandled fault, and a
non-empty extracted text is returned as-is. -/
theorem c8_empty_content (data : GeminiResponse) (he : data.error = none) :
    ((responseText? data = none ∨ responseText? data = some "") →
      extractResponseText data = .error "No response content from Gemini") ∧
    (∀ t, responseText? data = some t → t ≠ "" →
      extractResponseText data = .ok t) := by
  constructor
  · rintro (h | h) <;> simp [extractResponseText, he, h]
  · intro t ht hne
    simp [extractResponseText, he, ht, hne]

/-- C8, witness: the all-absent response body (no candidates, no error)
yields the no-content failure. -/
theorem c8_empty_content_witness :
    extractResponseText {} = .error "No response content from Gemini" :=
  (c8_empty_content {} rfl).1 (Or.inl rfl)

/-- C9: an analyze prompt or summarize content consisting only of
whitespace characters is rejected with exactly the same error as when
the field is missing — the handlers trim before the presence check. -/
theorem c9_whitespace_only_rejected (p c : String) (a b : RawArgs)
    (hap : a.prompt = some p) (hwp : ∀ ch ∈ p.data, ch.isWhitespace)
    (hbc : b.content = some c) (hwc : ∀ ch ∈ c.data, ch.isWhitespace) :
    handleGeminiAnalyze a = .error "prompt is required and cannot be empty" ∧
    handleGeminiSummarize b = .error "content is required and cannot be empty" ∧
    handleGeminiAnalyze { a with prompt := none } =
      .error "prompt is required and cannot be empty" ∧
    handleGeminiSummarize { b with content := none } =
      .error "content is required and cannot be empty" := by
  have hp : jsTrim p = "" := jsTrim_eq_empty_of_whitespace p hwp
  have hc : jsTrim c = "" := jsTrim_eq_empty_of_whitespace c hwc
  refine ⟨?_, ?_, ?_, ?_⟩
  · simp [handleGeminiAnalyze, hap, hp]
  · simp [handleGeminiSummarize, hbc, hc]
  · simp [handleGeminiAnalyze]
  · simp [handleGeminiSummarize]

/-- C9, witness: prompt " " and content "\t" are both rejected. -/
theorem c9_whitespace_only_rejected_witness :
    handleGeminiAnalyze { prompt := some " " } =
      .error "prompt is required and cannot be empty" ∧
    handleGeminiSummarize { content := some "\t" } =
      .error "content is required and cannot be empty" :=
  ⟨(c9_whitespace_only_rejected " " "\t" { prompt := some " " }
      { content := some "\t" } rfl (by decide) rfl (by decide)).1,
   (c9_whitespace_only_rejected " " "\t" { prompt := some " " }
      { content := some "\t" } rfl (by decide) rfl (by decide)).2.1⟩

/-- C10: for all three tools, a model argument present but equal to the
empty string falls back to the fixed default model, via the JavaScript
falsiness of the empty string. -/
theorem c10_empty_model_default (p content : String) (msgs : List ChatTurn)
    (hp : jsTrim p ≠ "") (hc : jsTrim content ≠ "") (hm : msgs ≠ []) :
    (∃ call, handleGeminiAnalyze { prompt := some p, model := some "" } = .ok call ∧
      call.model = DEFAULT_MODEL) ∧
    (∃ call, handleGeminiChat { messages := some msgs, model := some "" } = .ok call ∧
      call.model = DEFAULT_MODEL) ∧
    (∃ call, handleGeminiSummarize { content := some content, model := some "" } = .ok call ∧
      call.model = DEFAULT_MODEL) := by
  refine ⟨⟨⟨[⟨Role.user, [⟨p⟩]⟩], DEFAULT_MODEL, 7/10, 8192⟩, ?_, rfl⟩,
    ⟨⟨msgs.map (fun t => ⟨t.role, [⟨t.content⟩]⟩), DEFAULT_MODEL, 7/10, 8192⟩, ?_, rfl⟩,
    ⟨⟨[⟨Role.user,
        [⟨"Please provide a concise summary of the following content:\n\n"
            ++ content⟩]⟩], DEFAULT_MODEL, 1/2, 8192⟩, ?_, rfl⟩⟩
  · simp [handleGeminiAnalyze, hp, orDefault]
  · simp [handleGeminiChat, hm, orDefault]
  · simp [handleGeminiSummarize, hc, orDefault]

/-- C10, witness: concrete valid requests with model "" all use the
default model. -/
theorem c10_empty_model_default_witness :
    (∃ call, handleGeminiAnalyze { prompt := some "X", model := some "" } = .ok call ∧
      call.model = DEFAULT_MODEL) ∧
    (∃ call, handleGeminiChat { messages := some [⟨Role.user, "hi"⟩], model := some "" } = .ok call ∧
      call.model = DEFAULT_MODEL) ∧
    (∃ call, handleGeminiSummarize { content := some "ABC", model := some "" } = .ok call ∧
      call.model = DEFAULT_MODEL) :=
  c10_empty_model_default "X" "ABC" [⟨Role.user, "hi"⟩]
    (by decide) (by decide) (by decide)

end GeminiMcp
